import Mathlib

/-!
Shallow embedding of the memdata-mcp tool dispatcher (src/index.ts).

The program is a thin MCP adapter: each tool handler validates its arguments
against a zod schema, performs one or two HTTP calls against the MemData API,
reshapes the parsed JSON payload, and renders a text block with an optional
error flag.  We embed the pure data flow: HTTP responses and parsed payloads
are explicit inputs, JS numbers are modelled as rationals, JS `undefined`
as `Option.none`, and thrown/caught errors as `Except`.
-/

namespace Memdata

/-- A rendered MCP tool reply: one text block plus the `isError` flag
(absent in the source means `false`). -/
structure ToolOutput where
  text : String
  isError : Bool
  deriving Repr, DecidableEq

/-- JS `o || d` on an optional string: `undefined` and the empty string are
falsy, so both fall back to the default (used as `result.error || "Unknown error"`). -/
def orDefault (o : Option String) (d : String) : String :=
  match o with
  | none => d
  | some s => if s = "" then d else s

/-- JS template interpolation of a possibly-undefined string
(`undefined` prints as the literal text "undefined"). -/
def jsShowOptStr (o : Option String) : String :=
  match o with
  | none => "undefined"
  | some s => s

/-- JS template interpolation of a possibly-undefined integer field. -/
def jsShowOptInt (o : Option Int) : String :=
  match o with
  | none => "undefined"
  | some n => toString n

/-- The transport-level view of one HTTP response: `ok` is `response.ok`
(2xx), `status` the HTTP status code, `bodyText` the raw body text read by
`response.text()` on failure. -/
structure HttpResponse where
  ok : Bool
  status : Nat
  bodyText : String
  deriving Repr, DecidableEq

/-- The error message thrown by `callAPI` / `callAPIGet` / `callAPIDelete`
on a non-2xx response (src/index.ts lines 57-60, 76-79, 95-98). -/
def apiErrorMessage (status : Nat) (body : String) : String :=
  "API error (" ++ toString status ++ "): " ++ body

/-- `callAPI` and its GET/DELETE variants: on a 2xx response the parsed JSON
payload is returned; on a non-2xx response an error carrying the status code
and raw body text is thrown (modelled as `Except.error`). The parsed payload
is an explicit parameter since the adapter performs no JSON validation. -/
def callAPI {α : Type} (resp : HttpResponse) (payload : α) : Except String α :=
  if resp.ok then .ok payload
  else .error (apiErrorMessage resp.status resp.bodyText)

/-- JSON values, used to model zod argument validation and serialized
request bodies. -/
inductive Json where
  | null
  | bool (b : Bool)
  | num (q : ℚ)
  | str (s : String)
  | arr (xs : List Json)
  | obj (fields : List (String × Json))
  deriving Repr

/-- zod `z.string()`: accepts exactly string values (any string, including
the empty string). -/
def Json.asString : Json → Option String
  | .str s => some s
  | _ => none

/-- zod `z.record(z.unknown())`: accepts exactly JSON objects. -/
def Json.asRecord : Json → Option (List (String × Json))
  | .obj f => some f
  | _ => none

/-- zod `z.number()`: accepts exactly number values. -/
def Json.asNumber : Json → Option ℚ
  | .num q => some q
  | _ => none

/-! ## Limit clamping

`memdata_query` calls `queryMemory(query, Math.min(limit, 20))`
(src/index.ts line 533) and `memdata_query_timerange` does the same
(line 950); `memdata_list` calls `listArtifacts(Math.min(limit, 50))`
(line 626).  JS numbers are modelled as rationals; `Math.min` is `min`. -/

/-- Effective limit sent upstream by the Query handlers: `Math.min(limit, 20)`. -/
def queryEffectiveLimit (limit : ℚ) : ℚ := min limit 20

/-- Effective limit sent upstream by the List handler: `Math.min(limit, 50)`. -/
def listEffectiveLimit (limit : ℚ) : ℚ := min limit 50

/-! ## Match quality (src/index.ts lines 549-554 and 970-975) -/

/-- `getMatchQuality`: the discrete tier emoji attached to each rendered
query result, a function of the (rounded) similarity score. -/
def getMatchQuality (score : ℚ) : String :=
  if 0.7 ≤ score then "🟢"
  else if 0.5 ≤ score then "🟡"
  else if 0.35 ≤ score then "🟠"
  else "🔴"

/-! ## Delete (src/index.ts lines 219-238 and 668-701) -/

/-- The remote JSON payload shape cast by `deleteArtifact`. -/
structure DeleteRemote where
  success : Bool
  deleted_chunks : Option Int
  error : Option String
  message : Option String
  deriving Repr, DecidableEq

/-- The reshaped result produced by `deleteArtifact`. -/
structure DeleteResult where
  success : Bool
  deletedChunks : Option Int
  message : Option String
  deriving Repr, DecidableEq

/-- `deleteArtifact` payload reshaping: a payload with `success:false`
becomes a failure result carrying `result.error || "Unknown error"`. -/
def deleteArtifact (r : DeleteRemote) : DeleteResult :=
  if !r.success then ⟨false, none, some (orDefault r.error "Unknown error")⟩
  else ⟨true, r.deleted_chunks, r.message⟩

/-- The `memdata_delete` tool handler: a thrown transport error is caught and
rendered as a failure; a reshaped failure result is rendered as a failure;
otherwise the success text is rendered. -/
def deleteToolHandler (transport : Except String DeleteRemote) : ToolOutput :=
  match transport with
  | .error msg => ⟨"Failed to delete: " ++ msg, true⟩
  | .ok remote =>
    let result := deleteArtifact remote
    if !result.success then
      ⟨"Failed to delete: " ++ jsShowOptStr result.message, true⟩
    else
      ⟨"Successfully deleted artifact and " ++ jsShowOptInt result.deletedChunks ++
        " chunks.", false⟩

/-! ## Query (src/index.ts lines 129-182 and 524-615) -/

/-- One narrative insight, as declared in the `NarrativeInsight` interface. -/
structure NarrativeInsight where
  type : String
  content : String
  confidence : ℚ
  evidence : String
  chunk_id : String
  deriving Repr

/-- The optional five-category narrative layer of a query payload. -/
structure NarrativeLayer where
  decisions : Option (List NarrativeInsight)
  causality : Option (List NarrativeInsight)
  patterns : Option (List NarrativeInsight)
  implications : Option (List NarrativeInsight)
  gaps : Option (List NarrativeInsight)
  deriving Repr

/-- One raw result item of the remote query payload. -/
structure RemoteQueryItem where
  chunk_text : String
  source_name : String
  similarity_score : ℚ
  deriving Repr

/-- The remote JSON payload shape cast by `queryMemory`. -/
structure QueryRemote where
  success : Bool
  results : Option (List RemoteQueryItem)
  narrative : Option NarrativeLayer
  narrative_count : Option Int
  error : Option String
  deriving Repr

/-- One reshaped query result item. -/
structure QueryItem where
  text : String
  source : String
  score : ℚ
  deriving Repr

/-- The reshaped result produced by `queryMemory`. -/
structure QueryResult where
  success : Bool
  results : Option (List QueryItem)
  narrative : Option NarrativeLayer
  narrative_count : Option Int
  message : Option String
  deriving Repr

/-- JS `Math.round`: round half towards positive infinity, which is exactly
Mathlib's `round` on rationals (`round x = ⌊x + 1/2⌋`). -/
def jsRound (q : ℚ) : Int := round q

/-- `Math.round(s * 1000) / 1000`: the three-decimal rounding applied to
each similarity score in `queryMemory`. -/
def roundTo3 (q : ℚ) : ℚ := (jsRound (q * 1000) : ℚ) / 1000

/-- `queryMemory` payload reshaping: failure carries
`result.error || "Unknown error"`; success maps the raw items (with
`result.results || []` defaulting an absent list) and rounds each score. -/
def queryMemory (r : QueryRemote) : QueryResult :=
  if !r.success then ⟨false, none, none, none, some (orDefault r.error "Unknown error")⟩
  else
    ⟨true,
     some ((r.results.getD []).map fun x =>
       ⟨x.chunk_text, x.source_name, roundTo3 x.similarity_score⟩),
     r.narrative, r.narrative_count, none⟩

/-- `.map((r, i) => ...)` with the element index, starting at a given index. -/
def mapWithIndexFrom {α β : Type} (f : Nat → α → β) : Nat → List α → List β
  | _, [] => []
  | i, x :: xs => f i x :: mapWithIndexFrom f (i + 1) xs

/-- `.map((r, i) => ...)` with the element index. -/
def mapWithIndex {α β : Type} (f : Nat → α → β) (l : List α) : List β :=
  mapWithIndexFrom f 0 l

/-- JS `(q).toFixed(1)` for the non-negative one-decimal percentages the
query renderer produces (scores are pre-rounded to three decimals, so
`score * 100` has at most one decimal digit and no further rounding occurs). -/
def toFixed1 (q : ℚ) : String :=
  let n := round (q * 10)
  toString (n / 10) ++ "." ++ toString (n % 10)

/-- One rendered query result line:
`[i+1] <tier> <pct>% | <source>\n<text>` (src/index.ts line 557). -/
def formatQueryLine (i : Nat) (r : QueryItem) : String :=
  "[" ++ toString (i + 1) ++ "] " ++ getMatchQuality r.score ++ " " ++
    toFixed1 (r.score * 100) ++ "% | " ++ r.source ++ "\n" ++ r.text

/-- One rendered narrative insight bullet (content and rounded confidence). -/
def insightLine (n : NarrativeInsight) : String :=
  "  • " ++ n.content ++ " (" ++ toString (jsRound (n.confidence * 100)) ++ "%)"

/-- One labelled narrative part; pushed only when the category list is
present and non-empty (`narrative.decisions?.length` is falsy for `0`). -/
def narrativePart (label : String) (xs : Option (List NarrativeInsight)) : List String :=
  match xs with
  | none => []
  | some [] => []
  | some l => [label ++ ":\n" ++ String.intercalate "\n" (l.map insightLine)]

/-- The narrative section of the query rendering: present only when the
payload has a narrative layer and `(narrative_count ?? 0) > 0` and at least
one category is non-empty (src/index.ts lines 561-594). -/
def narrativeSection (narrative : Option NarrativeLayer) (narrative_count : Option Int) :
    String :=
  match narrative with
  | none => ""
  | some nl =>
    if 0 < narrative_count.getD 0 then
      let parts :=
        narrativePart "DECISIONS" nl.decisions ++
        narrativePart "CAUSALITY" nl.causality ++
        narrativePart "PATTERNS" nl.patterns ++
        narrativePart "IMPLICATIONS" nl.implications ++
        narrativePart "GAPS" nl.gaps
      if parts.isEmpty then ""
      else "\n\n═══ NARRATIVE INSIGHTS ═══\n" ++ String.intercalate "\n\n" parts
    else ""

/-- The fixed score legend appended to every non-empty query rendering. -/
def scoreLegend : String :=
  "\n\n---\n_Match quality: 🟢 >70% strong | 🟡 >50% good | 🟠 >35% partial | 🔴 weak_"

/-- The `memdata_query` tool handler: a thrown transport error is caught and
rendered as a failure; a reshaped failure is rendered as a failure; an empty
or absent result list is rendered as the fixed no-results message without the
error flag; otherwise the formatted results, narrative section and legend. -/
def queryToolHandler (transport : Except String QueryRemote) : ToolOutput :=
  match transport with
  | .error msg => ⟨"Failed to query memory: " ++ msg, true⟩
  | .ok remote =>
    let result := queryMemory remote
    if !result.success then
      ⟨"Failed to query: " ++ jsShowOptStr result.message, true⟩
    else
      match result.results with
      | none => ⟨"No relevant memories found for this query.", false⟩
      | some items =>
        if items.isEmpty then
          ⟨"No relevant memories found for this query.", false⟩
        else
          let formatted :=
            String.intercalate "\n\n---\n\n" (mapWithIndex formatQueryLine items)
          ⟨"Found " ++ toString items.length ++ " relevant memories:\n\n" ++ formatted ++
            narrativeSection result.narrative result.narrative_count ++ scoreLegend,
           false⟩

/-! ## List (src/index.ts lines 187-214 and 618-665) -/

/-- One raw artifact of the remote list payload. -/
structure RemoteArtifact where
  id : String
  source_name : String
  type : String
  chunk_count : Int
  created_at : String
  deriving Repr

/-- The remote JSON payload shape cast by `listArtifacts`. -/
structure ListRemote where
  success : Bool
  artifacts : Option (List RemoteArtifact)
  error : Option String
  deriving Repr

/-- One reshaped artifact entry. -/
structure Artifact where
  id : String
  name : String
  type : String
  chunks : Int
  date : String
  deriving Repr

/-- The reshaped result produced by `listArtifacts`. -/
structure ListResult where
  success : Bool
  artifacts : Option (List Artifact)
  message : Option String
  deriving Repr

/-- JS `s.split('T')[0]`: the calendar-day prefix of an ISO timestamp. -/
def dateOnly (s : String) : String := ((s.splitOn "T").headD "")

/-- `listArtifacts` payload reshaping: failure carries
`result.error || "Unknown error"`; success maps the raw artifacts
(`result.artifacts || []`) reducing each date to day precision. -/
def listArtifacts (r : ListRemote) : ListResult :=
  if !r.success then ⟨false, none, some (orDefault r.error "Unknown error")⟩
  else
    ⟨true,
     some ((r.artifacts.getD []).map fun a =>
       ⟨a.id, a.source_name, a.type, a.chunk_count, dateOnly a.created_at⟩),
     none⟩

/-- One rendered list entry line. -/
def formatArtifactLine (a : Artifact) : String :=
  "- " ++ a.name ++ " (" ++ toString a.chunks ++ " chunks, " ++ a.date ++ ")\n  ID: " ++
    a.id

/-- The `memdata_list` tool handler (parameterised by the zod-defaulted
`limit` argument, which the count note compares against): transport and
payload failures are rendered as failures; an empty or absent artifact list
is rendered as the fixed no-memories message without the error flag. -/
def listToolHandler (limit : ℚ) (transport : Except String ListRemote) : ToolOutput :=
  match transport with
  | .error msg => ⟨"Failed to list memories: " ++ msg, true⟩
  | .ok remote =>
    let result := listArtifacts remote
    if !result.success then
      ⟨"Failed to list: " ++ jsShowOptStr result.message, true⟩
    else
      match result.artifacts with
      | none => ⟨"No memories stored yet. Use memdata_ingest to add content.", false⟩
      | some arts =>
        if arts.isEmpty then
          ⟨"No memories stored yet. Use memdata_ingest to add content.", false⟩
        else
          let formatted := String.intercalate "\n" (arts.map formatArtifactLine)
          let countNote :=
            if limit ≤ (arts.length : ℚ) then
              "\n\n_Showing " ++ toString arts.length ++
                " memories. Use `limit` param for more._"
            else ""
          ⟨"Stored memories (" ++ toString arts.length ++ "):\n\n" ++ formatted ++
            countNote, false⟩

/-! ## Ingest (src/index.ts lines 106-124 and 487-521) -/

/-- The remote JSON payload shape cast by `ingestContent`. -/
structure IngestRemote where
  success : Bool
  artifact_id : Option String
  chunk_count : Option Int
  error : Option String
  deriving Repr

/-- The reshaped result produced by `ingestContent`. -/
structure IngestResult where
  success : Bool
  artifactId : Option String
  chunkCount : Option Int
  message : Option String
  deriving Repr

/-- `ingestContent` payload reshaping. -/
def ingestContent (r : IngestRemote) : IngestResult :=
  if !r.success then ⟨false, none, none, some (orDefault r.error "Unknown error")⟩
  else ⟨true, r.artifact_id, r.chunk_count, none⟩

/-- The `memdata_ingest` tool handler (parameterised by the validated `name`
argument used in the success rendering). -/
def ingestToolHandler (name : String) (transport : Except String IngestRemote) :
    ToolOutput :=
  match transport with
  | .error msg => ⟨"Failed to ingest content: " ++ msg, true⟩
  | .ok remote =>
    let result := ingestContent remote
    if !result.success then
      ⟨"Failed to ingest: " ++ jsShowOptStr result.message, true⟩
    else
      ⟨"✅ Stored in memory:\n- Source: " ++ name ++ "\n- Chunks: " ++
        jsShowOptInt result.chunkCount ++ "\n- ID: " ++ jsShowOptStr result.artifactId ++
        "\n\n🏷️ AI tagging & narrative extraction will run in background (~2 min).",
       false⟩

/-! ## Status (src/index.ts lines 443-478 and 704-738) -/

/-- The health payload shape cast by `getStatus` (first GET). -/
structure HealthRemote where
  status : String
  deriving Repr, DecidableEq

/-- The inner usage record of the usage payload. -/
structure UsageInfo where
  storage_used_mb : ℚ
  storage_limit_mb : ℚ
  deriving Repr, DecidableEq

/-- The usage payload of the second GET.  The cast in `getStatus` reads only
`success` and `usage`; an `error` field a failing remote would supply is
carried here to show it is never read. -/
structure UsageRemote where
  success : Bool
  usage : Option UsageInfo
  error : Option String
  deriving Repr, DecidableEq

/-- The reshaped storage block. -/
structure StorageInfo where
  used_mb : ℚ
  limit_mb : ℚ
  percent : Int
  deriving Repr, DecidableEq

/-- The reshaped result produced by `getStatus`. -/
structure StatusResult where
  success : Bool
  healthy : Option Bool
  storage : Option StorageInfo
  message : Option String
  deriving Repr, DecidableEq

/-- The storage percentage: `storageLimit > 0 ?
Math.round((storageUsed / storageLimit) * 100) : 0` (src/index.ts line 469). -/
def storagePercent (used limit : ℚ) : Int :=
  if 0 < limit then jsRound (used / limit * 100) else 0

/-- `getStatus`: performs the health GET, then the usage GET, inside one
`try`; a throw from either is caught and becomes a failure result.  The
usage payload's `success` flag is never inspected; absent usage numbers
default to `0` via `|| 0`. -/
def getStatus (health : Except String HealthRemote) (usage : Except String UsageRemote) :
    StatusResult :=
  match health with
  | .error e => ⟨false, none, none, some e⟩
  | .ok h =>
    match usage with
    | .error e => ⟨false, none, none, some e⟩
    | .ok u =>
      let isHealthy := h.status = "ok"
      let storageUsed := (u.usage.map (·.storage_used_mb)).getD 0
      let storageLimit := (u.usage.map (·.storage_limit_mb)).getD 0
      ⟨true, some isHealthy,
       some ⟨storageUsed, storageLimit, storagePercent storageUsed storageLimit⟩, none⟩

/-- JS number rendering restricted to the integer-valued rationals the
status theorems exercise (JS prints `25` for `25`). -/
def numToString (q : ℚ) : String :=
  if q.den = 1 then toString q.num else toString q

/-- The `memdata_status` tool handler. -/
def statusToolHandler (health : Except String HealthRemote)
    (usage : Except String UsageRemote) : ToolOutput :=
  let result := getStatus health usage
  if !result.success then
    ⟨"Failed to get status: " ++ jsShowOptStr result.message, true⟩
  else
    let healthStatus := if result.healthy.getD false then "Healthy" else "Unhealthy"
    let storage := result.storage.getD ⟨0, 0, 0⟩
    ⟨"MemData Status:\n- API: " ++ healthStatus ++ "\n- Storage: " ++
      numToString storage.used_mb ++ " MB / " ++ numToString storage.limit_mb ++
      " MB (" ++ toString storage.percent ++ "% used)", false⟩

/-! ## JSON.stringify(x, null, 2) — used by the whoami rendering -/

/-- JSON string escaping for one character. -/
def jsonEscapeChar (c : Char) : String :=
  if c = '\"' then "\\\""
  else if c = '\\' then "\\\\"
  else if c = '\n' then "\\n"
  else if c = '\t' then "\\t"
  else if c = '\r' then "\\r"
  else String.mk [c]

/-- A JSON-quoted string literal. -/
def jsonQuote (s : String) : String :=
  "\"" ++ String.join (s.toList.map jsonEscapeChar) ++ "\""

/-- A run of indentation spaces. -/
def indentSpaces (n : Nat) : String := String.mk (List.replicate n ' ')

mutual

/-- `JSON.stringify(v, null, 2)` at a given current indentation. -/
def jsonStringify (ind : Nat) : Json → String
  | .null => "null"
  | .bool b => if b then "true" else "false"
  | .num q => numToString q
  | .str s => jsonQuote s
  | .arr [] => "[]"
  | .arr (x :: xs) =>
    "[\n" ++ jsonStringifyItems (ind + 2) (x :: xs) ++ "\n" ++ indentSpaces ind ++ "]"
  | .obj [] => "\x7b\x7d"
  | .obj (f :: fs) =>
    "\x7b\n" ++ jsonStringifyFields (ind + 2) (f :: fs) ++ "\n" ++ indentSpaces ind ++
      "\x7d"

/-- Array elements, one per line, comma-separated. -/
def jsonStringifyItems (ind : Nat) : List Json → String
  | [] => ""
  | [x] => indentSpaces ind ++ jsonStringify ind x
  | x :: y :: xs =>
    indentSpaces ind ++ jsonStringify ind x ++ ",\n" ++ jsonStringifyItems ind (y :: xs)

/-- Object fields, one per line, comma-separated. -/
def jsonStringifyFields (ind : Nat) : List (String × Json) → String
  | [] => ""
  | [(k, v)] => indentSpaces ind ++ jsonQuote k ++ ": " ++ jsonStringify ind v
  | (k, v) :: g :: fs =>
    indentSpaces ind ++ jsonQuote k ++ ": " ++ jsonStringify ind v ++ ",\n" ++
      jsonStringifyFields ind (g :: fs)

end

/-! ## GetIdentity / whoami (src/index.ts lines 243-297 and 741-817) -/

/-- One recent-activity record of the identity payload. -/
structure Activity where
  source : String
  date : String
  deriving Repr, DecidableEq

/-- The inner identity record of the identity payload
(`agent_name` and `identity_summary` may be `null`). -/
structure IdentityInfo where
  agent_name : Option String
  identity_summary : Option String
  session_count : Int
  deriving Repr

/-- The memory statistics block of the identity payload. -/
structure MemoryStats where
  total_memories : Int
  oldest_memory : Option String
  newest_memory : Option String
  deriving Repr

/-- The remote JSON payload shape cast by `getIdentity`. -/
structure IdentityRemote where
  success : Bool
  identity : Option IdentityInfo
  last_session : Option (List (String × Json))
  working_on : Option String
  memory_stats : Option MemoryStats
  recent_activity : Option (List Activity)
  error : Option String
  deriving Repr

/-- The reshaped result produced by `getIdentity`. -/
structure IdentityResult where
  success : Bool
  identity : Option IdentityInfo
  last_session : Option (List (String × Json))
  working_on : Option String
  memory_stats : Option MemoryStats
  recent_activity : Option (List Activity)
  message : Option String
  deriving Repr

/-- `getIdentity` payload reshaping: a payload with `success:false` becomes
a failure result carrying `result.error || "Unknown error"`; success passes
every field through unchanged. -/
def getIdentity (r : IdentityRemote) : IdentityResult :=
  if !r.success then ⟨false, none, none, none, none, none,
    some (orDefault r.error "Unknown error")⟩
  else ⟨true, r.identity, r.last_session, r.working_on, r.memory_stats,
    r.recent_activity, none⟩

/-- JS truthiness of an optional string: `undefined`, `null` and the empty
string are falsy. -/
def strTruthy (o : Option String) : Bool :=
  match o with
  | none => false
  | some s => s ≠ ""

/-- The recent-activity filter of the whoami handler (src/index.ts lines
788-793): `recent.filter` with a `seen` set of sources, keeping a record
only when its source has not been seen before. -/
def dedupeBySource : List Activity → List String → List Activity
  | [], _ => []
  | r :: rest, seen =>
    if r.source ∈ seen then dedupeBySource rest seen
    else r :: dedupeBySource rest (r.source :: seen)

/-- `uniqueRecent`: the deduplicated recent-activity list (empty seen set). -/
def uniqueRecent (recent : List Activity) : List Activity :=
  dedupeBySource recent []

/-- The recent-activity records actually rendered:
`uniqueRecent.slice(0, 5)` — deduplication happens before truncation. -/
def recentActivityShown (recent : List Activity) : List Activity :=
  (uniqueRecent recent).take 5

/-- The recent-activity section of the whoami rendering (empty when the
payload has no recent activity). -/
def whoamiRecentSection (recent : List Activity) : String :=
  if recent.isEmpty then ""
  else
    "## Recent Activity\n" ++
      String.join ((recentActivityShown recent).map fun r =>
        "- " ++ r.source ++ " (" ++ r.date ++ ")\n")

/-- The `memdata_whoami` tool handler.  The source's non-null assertions
`result.identity!` / `result.memory_stats!` are modelled by defaulting. -/
def whoamiToolHandler (transport : Except String IdentityRemote) : ToolOutput :=
  match transport with
  | .error msg => ⟨"Failed to get identity: " ++ msg, true⟩
  | .ok remote =>
    let result := getIdentity remote
    if !result.success then
      ⟨"Failed to get identity: " ++ jsShowOptStr result.message, true⟩
    else
      let identity := result.identity.getD ⟨none, none, 0⟩
      let stats := result.memory_stats.getD ⟨0, none, none⟩
      let recent := result.recent_activity.getD []
      let header :=
        "# Who Am I\n\n" ++
        "**Name:** " ++ orDefault identity.agent_name "Not set" ++ "\n" ++
        "**Identity:** " ++ orDefault identity.identity_summary "Not set" ++ "\n" ++
        "**Session #:** " ++ toString identity.session_count ++ "\n"
      let firstTimePrompt :=
        if !strTruthy identity.agent_name && !strTruthy identity.identity_summary then
          "\n> 💡 **First time?** Set your identity with `memdata_set_identity` to personalize your memory.\n"
        else ""
      let workingOnSection :=
        if strTruthy result.working_on then
          "## 🎯 Continue Working On\n" ++ jsShowOptStr result.working_on ++ "\n\n"
        else ""
      let lastSessionSection :=
        match result.last_session with
        | none => ""
        | some fields =>
          if fields.isEmpty then ""
          else "## Last Session Handoff\n" ++ jsonStringify 0 (.obj fields) ++ "\n\n"
      let statsSection :=
        "## Memory Stats\n" ++
        "- Total memories: " ++ toString stats.total_memories ++ "\n" ++
        "- Oldest: " ++ orDefault stats.oldest_memory "None" ++ "\n" ++
        "- Newest: " ++ orDefault stats.newest_memory "None" ++ "\n\n"
      let tip :=
        if 1 < identity.session_count && !strTruthy result.working_on then
          "\n> 💡 **Tip:** Use `memdata_session_end` before ending to preserve context for next time.\n"
        else ""
      ⟨header ++ firstTimePrompt ++ "\n" ++ workingOnSection ++ lastSessionSection ++
        statsSection ++ whoamiRecentSection recent ++ tip, false⟩

/-! ## SetIdentity and EndSession (src/index.ts lines 302-354 and 820-892) -/

/-- The acknowledgement payload shape cast by `endSession` and
`updateIdentity`. -/
structure AckRemote where
  success : Bool
  error : Option String
  message : Option String
  deriving Repr, DecidableEq

/-- The reshaped acknowledgement result. -/
structure AckResult where
  success : Bool
  message : Option String
  deriving Repr, DecidableEq

/-- `updateIdentity` payload reshaping. -/
def updateIdentityResult (r : AckRemote) : AckResult :=
  if !r.success then ⟨false, some (orDefault r.error "Unknown error")⟩
  else ⟨true, r.message⟩

/-- `endSession` payload reshaping. -/
def endSessionResult (r : AckRemote) : AckResult :=
  if !r.success then ⟨false, some (orDefault r.error "Unknown error")⟩
  else ⟨true, r.message⟩

/-- The serialized request body of `updateIdentity`
(src/index.ts lines 338-341): `JSON.stringify` drops properties whose
value is `undefined`, so an unsupplied field is omitted from the body. -/
def updateIdentityBody (agent_name identity_summary : Option String) :
    List (String × Json) :=
  (match agent_name with
   | none => []
   | some a => [("agent_name", Json.str a)]) ++
  (match identity_summary with
   | none => []
   | some i => [("identity_summary", Json.str i)])

/-- The serialized request body of `endSession` (src/index.ts lines
308-314): the locally generated `new Date().toISOString()` timestamp is an
explicit `now` parameter; `context || {}` defaults an absent context. -/
def endSessionBody (summary : String) (working_on : Option String)
    (context : Option (List (String × Json))) (now : String) : List (String × Json) :=
  (match working_on with
   | none => []
   | some w => [("working_on", Json.str w)]) ++
  [("session_handoff", Json.obj
    [("summary", Json.str summary),
     ("context", Json.obj (context.getD [])),
     ("ended_at", Json.str now)])]

/-- The `memdata_set_identity` tool handler. -/
def setIdentityToolHandler (agent_name identity_summary : Option String)
    (transport : Except String AckRemote) : ToolOutput :=
  match transport with
  | .error msg => ⟨"Failed to update identity: " ++ msg, true⟩
  | .ok remote =>
    let result := updateIdentityResult remote
    if !result.success then
      ⟨"Failed to update identity: " ++ jsShowOptStr result.message, true⟩
    else
      ⟨"Identity updated:\n- Name: " ++ orDefault agent_name "(unchanged)" ++
        "\n- Summary: " ++ orDefault identity_summary "(unchanged)", false⟩

/-- The `memdata_session_end` tool handler. -/
def sessionEndToolHandler (summary : String) (working_on : Option String)
    (transport : Except String AckRemote) : ToolOutput :=
  match transport with
  | .error msg => ⟨"Failed to save handoff: " ++ msg, true⟩
  | .ok remote =>
    let result := endSessionResult remote
    if !result.success then
      ⟨"Failed to save handoff: " ++ jsShowOptStr result.message, true⟩
    else
      ⟨"Session handoff saved.\n\nNext session will see:\n- Working on: " ++
        orDefault working_on "Not specified" ++ "\n- Summary: " ++
        summary.take 100 ++ "...", false⟩

/-! ## QueryTimeRange (src/index.ts lines 359-388 and 939-996) -/

/-- One raw result item of the dated query payload. -/
structure RemoteDatedItem where
  chunk_text : String
  source_name : String
  similarity_score : ℚ
  created_at : String
  deriving Repr

/-- The remote JSON payload shape cast by `queryMemoryWithDates`. -/
structure DatedQueryRemote where
  success : Bool
  results : Option (List RemoteDatedItem)
  error : Option String
  deriving Repr

/-- One reshaped dated query item. -/
structure DatedQueryItem where
  text : String
  source : String
  score : ℚ
  date : String
  deriving Repr

/-- The reshaped result produced by `queryMemoryWithDates`. -/
structure DatedQueryResult where
  success : Bool
  results : Option (List DatedQueryItem)
  message : Option String
  deriving Repr

/-- The serialized request body of `queryMemoryWithDates` (src/index.ts
lines 365-367): `since` and `until` are added by `if (since) body.since =
since` — a JS truthiness test, under which `undefined` and the empty string
are both excluded.  Supplied values are not parsed or validated as dates. -/
def queryMemoryWithDatesBody (queryText : String) (limit : ℚ)
    (since untilDate : Option String) : List (String × Json) :=
  [("query", Json.str queryText), ("limit", Json.num limit)] ++
  (if strTruthy since then [("since", Json.str (since.getD ""))] else []) ++
  (if strTruthy untilDate then [("until", Json.str (untilDate.getD ""))] else [])

/-- `queryMemoryWithDates` payload reshaping: scores rounded to three
decimals, dates reduced to day precision. -/
def queryMemoryWithDates (r : DatedQueryRemote) : DatedQueryResult :=
  if !r.success then ⟨false, none, some (orDefault r.error "Unknown error")⟩
  else
    ⟨true,
     some ((r.results.getD []).map fun x =>
       ⟨x.chunk_text, x.source_name, roundTo3 x.similarity_score,
        dateOnly x.created_at⟩),
     none⟩

/-- One rendered dated query result line (src/index.ts line 978). -/
def formatDatedQueryLine (i : Nat) (r : DatedQueryItem) : String :=
  "[" ++ toString (i + 1) ++ "] " ++ getMatchQuality r.score ++ " " ++
    toFixed1 (r.score * 100) ++ "% | " ++ r.date ++ " | " ++ r.source ++ "\n" ++ r.text

/-- The `memdata_query_timerange` tool handler. -/
def timerangeToolHandler (query : String) (since untilDate : Option String)
    (transport : Except String DatedQueryRemote) : ToolOutput :=
  match transport with
  | .error msg => ⟨"Failed to query memory: " ++ msg, true⟩
  | .ok remote =>
    let result := queryMemoryWithDates remote
    if !result.success then
      ⟨"Failed to query: " ++ jsShowOptStr result.message, true⟩
    else
      match result.results with
      | none =>
        ⟨"No memories found for \"" ++ query ++ "\"" ++
          (if strTruthy since || strTruthy untilDate then
            " in date range " ++ orDefault since "start" ++ " to " ++
              orDefault untilDate "now"
          else ""), false⟩
      | some items =>
        if items.isEmpty then
          ⟨"No memories found for \"" ++ query ++ "\"" ++
            (if strTruthy since || strTruthy untilDate then
              " in date range " ++ orDefault since "start" ++ " to " ++
                orDefault untilDate "now"
            else ""), false⟩
        else
          let formatted :=
            String.intercalate "\n\n---\n\n" (mapWithIndex formatDatedQueryLine items)
          ⟨"Found " ++ toString items.length ++ " memories:\n\n" ++ formatted, false⟩

/-! ## Relationships (src/index.ts lines 393-438 and 894-936) -/

/-- One raw relationship item of the remote payload. -/
structure RemoteRelItem where
  name : String
  type : String
  co_occurrence_count : Int
  deriving Repr

/-- The remote JSON payload shape cast by `getRelationships`. -/
structure RelRemote where
  success : Bool
  entity : Option String
  entity_type : Option String
  results : Option (List RemoteRelItem)
  error : Option String
  message : Option String
  deriving Repr

/-- One reshaped relationship. -/
structure Relationship where
  name : String
  type : String
  strength : Int
  deriving Repr

/-- The reshaped result produced by `getRelationships`. -/
structure RelResult where
  success : Bool
  entity_name : Option String
  entity_type : Option String
  relationships : Option (List Relationship)
  message : Option String
  deriving Repr

/-- `getRelationships` payload reshaping: a failure carries
`result.error || result.message || "Unknown error"`. -/
def getRelationships (r : RelRemote) : RelResult :=
  if !r.success then
    ⟨false, none, none, none,
     some (orDefault r.error (orDefault r.message "Unknown error"))⟩
  else
    ⟨true, r.entity, r.entity_type,
     some ((r.results.getD []).map fun x => ⟨x.name, x.type, x.co_occurrence_count⟩),
     none⟩

/-- The `memdata_relationships` tool handler. -/
def relationshipsToolHandler (entity : String) (transport : Except String RelRemote) :
    ToolOutput :=
  match transport with
  | .error msg => ⟨"Failed to get relationships: " ++ msg, true⟩
  | .ok remote =>
    let result := getRelationships remote
    if !result.success then
      ⟨"Failed to get relationships: " ++ jsShowOptStr result.message, true⟩
    else
      match result.relationships with
      | none => ⟨"No relationships found for \"" ++ entity ++ "\".", false⟩
      | some rels =>
        if rels.isEmpty then
          ⟨"No relationships found for \"" ++ entity ++ "\".", false⟩
        else
          ⟨"# Relationships for " ++ jsShowOptStr result.entity_name ++ " (" ++
            jsShowOptStr result.entity_type ++ ")\n\n" ++
            String.join (rels.map fun r =>
              "- **" ++ r.name ++ "** (" ++ r.type ++ ") - " ++ toString r.strength ++
                " co-occurrences\n"), false⟩

/-! ## zod argument validation at the dispatch boundary

`memdata_ingest` declares `content: z.string(), name: z.string()`
(src/index.ts lines 491-492); `memdata_session_end` declares
`summary: z.string(), working_on: z.string().optional(),
context: z.record(z.unknown()).optional()` (lines 824-826).  The MCP SDK
validates a call's arguments against the schema before the handler runs, so
a validation failure means no network call is attempted. -/

/-- zod validation of the `memdata_ingest` arguments: both `content` and
`name` must be present string values; any string — including the empty
string — passes. -/
def parseIngestArgs (o : List (String × Json)) : Option (String × String) := do
  let c ← (o.lookup "content").bind Json.asString
  let n ← (o.lookup "name").bind Json.asString
  pure (c, n)

/-- zod validation of the `memdata_session_end` arguments: `summary` must be
a present string value; `working_on`, when present, must be a string;
`context`, when present, must be an object. -/
def parseSessionEndArgs (o : List (String × Json)) :
    Option (String × Option String × Option (List (String × Json))) := do
  let s ← (o.lookup "summary").bind Json.asString
  let w ← match o.lookup "working_on" with
    | none => some none
    | some v => v.asString.map some
  let c ← match o.lookup "context" with
    | none => some none
    | some v => v.asRecord.map some
  pure (s, w, c)

/-- The ingest dispatch up to the network boundary: `none` means schema
validation rejected the call before any network request; `some body` means
a network request with that serialized body is attempted
(`ingestContent` posts `{ content, sourceName: name }`). -/
def ingestDispatch (o : List (String × Json)) : Option (List (String × Json)) :=
  (parseIngestArgs o).map fun a =>
    [("content", Json.str a.1), ("sourceName", Json.str a.2)]

/-- The session-end dispatch up to the network boundary, with the local
timestamp as an explicit parameter. -/
def sessionEndDispatch (o : List (String × Json)) (now : String) :
    Option (List (String × Json)) :=
  (parseSessionEndArgs o).map fun a => endSessionBody a.1 a.2.1 a.2.2 now

/-! ## Spec-side definition for the deduplication refinement (claim C5) -/

/-- Modelled from the spec's words, for comparison with `uniqueRecent`:
"deduplicated by source field, preserving first occurrence order" — walk the
list left to right, appending a record only when its source has not been
kept yet. -/
def specFirstOccurrences (l : List Activity) : List Activity :=
  l.foldl (fun acc r =>
    if r.source ∈ acc.map (·.source) then acc else acc ++ [r]) []

/-! # Theorems -/

/-- Helper: `dedupeBySource` only inspects membership in the seen set. -/
theorem dedupeBySource_congr (l : List Activity) :
    ∀ s₁ s₂ : List String, (∀ a, a ∈ s₁ ↔ a ∈ s₂) →
      dedupeBySource l s₁ = dedupeBySource l s₂ := by
  induction l with
  | nil => intro s₁ s₂ _; rfl
  | cons r rest ih =>
    intro s₁ s₂ h
    by_cases hr : r.source ∈ s₁
    · rw [dedupeBySource, if_pos hr, dedupeBySource, if_pos ((h r.source).mp hr),
        ih s₁ s₂ h]
    · rw [dedupeBySource, if_neg hr, dedupeBySource,
        if_neg (fun hc => hr ((h r.source).mpr hc))]
      refine congrArg (r :: ·) (ih _ _ fun a => ?_)
      simp only [List.mem_cons]
      exact or_congr Iff.rfl (h a)

/-- Helper: the fold of the spec-side definition, generalized over the
accumulator, equals the source-side filter with the accumulated sources as
the seen set. -/
theorem specFold_eq_dedupe (l : List Activity) :
    ∀ acc : List Activity,
      l.foldl (fun acc r =>
        if r.source ∈ acc.map (·.source) then acc else acc ++ [r]) acc =
      acc ++ dedupeBySource l (acc.map (·.source)) := by
  induction l with
  | nil => intro acc; simp [dedupeBySource]
  | cons r rest ih =>
    intro acc
    rw [List.foldl_cons]
    by_cases hr : r.source ∈ acc.map (·.source)
    · rw [if_pos hr, ih acc, dedupeBySource, if_pos hr]
    · rw [if_neg hr, ih (acc ++ [r]), dedupeBySource, if_neg hr]
      have hmap : (acc ++ [r]).map (·.source) = acc.map (·.source) ++ [r.source] := by
        simp
      have hcongr : dedupeBySource rest ((acc ++ [r]).map (·.source)) =
          dedupeBySource rest (r.source :: acc.map (·.source)) := by
        refine dedupeBySource_congr rest _ _ fun a => ?_
        rw [hmap]
        simp only [List.mem_append, List.mem_singleton, List.mem_cons]
        tauto
      rw [hcongr]
      simp

/-- C3: every Query invocation with limit > 20 sends exactly 20 upstream,
every List invocation with limit > 50 sends exactly 50, and both clamping
functions are idempotent. -/
theorem claim_C3_limit_clamping :
    (∀ limit : ℚ, 20 < limit → queryEffectiveLimit limit = 20) ∧
    (∀ limit : ℚ, 50 < limit → listEffectiveLimit limit = 50) ∧
    (∀ limit : ℚ,
      queryEffectiveLimit (queryEffectiveLimit limit) = queryEffectiveLimit limit) ∧
    (∀ limit : ℚ,
      listEffectiveLimit (listEffectiveLimit limit) = listEffectiveLimit limit) := by
  refine ⟨fun l h => ?_, fun l h => ?_, fun l => ?_, fun l => ?_⟩
  · exact min_eq_right h.le
  · exact min_eq_right h.le
  · simp [queryEffectiveLimit, min_assoc]
  · simp [listEffectiveLimit, min_assoc]

/-- Witness for C3 at concrete over-limit inputs. -/
theorem claim_C3_limit_clamping_witness :
    queryEffectiveLimit 25 = 20 ∧ listEffectiveLimit 60 = 50 ∧
    queryEffectiveLimit (queryEffectiveLimit 25) = queryEffectiveLimit 25 ∧
    listEffectiveLimit (listEffectiveLimit 60) = listEffectiveLimit 60 :=
  ⟨claim_C3_limit_clamping.1 25 (by norm_num),
   claim_C3_limit_clamping.2.1 60 (by norm_num),
   claim_C3_limit_clamping.2.2.1 25,
   claim_C3_limit_clamping.2.2.2 60⟩

/-- C9: the clamping is an upper bound only — any limit at or below the
bound, including zero, negative and fractional values, passes through
unchanged, and the effective limit is exactly `min limit bound`. -/
theorem claim_C9_clamp_lower_unbounded :
    (∀ limit : ℚ, limit ≤ 20 → queryEffectiveLimit limit = limit) ∧
    (∀ limit : ℚ, limit ≤ 50 → listEffectiveLimit limit = limit) ∧
    (∀ limit : ℚ, queryEffectiveLimit limit = min limit 20) ∧
    (∀ limit : ℚ, listEffectiveLimit limit = min limit 50) :=
  ⟨fun _ h => min_eq_left h, fun _ h => min_eq_left h, fun _ => rfl, fun _ => rfl⟩

/-- Witness for C9 at zero, negative and fractional limits. -/
theorem claim_C9_clamp_lower_unbounded_witness :
    queryEffectiveLimit 0 = 0 ∧ queryEffectiveLimit (-3) = -3 ∧
    queryEffectiveLimit (7 / 2) = 7 / 2 ∧ listEffectiveLimit (-3) = -3 :=
  ⟨claim_C9_clamp_lower_unbounded.1 0 (by norm_num),
   claim_C9_clamp_lower_unbounded.1 (-3) (by norm_num),
   claim_C9_clamp_lower_unbounded.1 (7 / 2) (by norm_num),
   claim_C9_clamp_lower_unbounded.2.1 (-3) (by norm_num)⟩

/-- C4: the match-quality tier is a pure, total function of the score with
inclusive lower bounds — 🟢 (strong) for score ≥ 0.70, 🟡 (good) for
0.50 ≤ score < 0.70, 🟠 (partial) for 0.35 ≤ score < 0.50, 🔴 (weak)
below; the boundary scores 0.70, 0.50 and 0.35 land in the higher tier; and
the tier of each result's score is attached to its rendered line. -/
theorem claim_C4_match_quality_tiers :
    (∀ s : ℚ, 0.7 ≤ s → getMatchQuality s = "🟢") ∧
    (∀ s : ℚ, 0.5 ≤ s → s < 0.7 → getMatchQuality s = "🟡") ∧
    (∀ s : ℚ, 0.35 ≤ s → s < 0.5 → getMatchQuality s = "🟠") ∧
    (∀ s : ℚ, s < 0.35 → getMatchQuality s = "🔴") ∧
    getMatchQuality 0.7 = "🟢" ∧ getMatchQuality 0.5 = "🟡" ∧
    getMatchQuality 0.35 = "🟠" ∧
    (∀ (i : Nat) (r : QueryItem), ∃ pre post : String,
      formatQueryLine i r = pre ++ (getMatchQuality r.score ++ post)) := by
  have tierStrong : ∀ s : ℚ, 0.7 ≤ s → getMatchQuality s = "🟢" := fun s h => by
    rw [getMatchQuality, if_pos h]
  have tierGood : ∀ s : ℚ, 0.5 ≤ s → s < 0.7 → getMatchQuality s = "🟡" :=
    fun s h5 h7 => by
      rw [getMatchQuality, if_neg (not_le.mpr h7), if_pos h5]
  have tierPart : ∀ s : ℚ, 0.35 ≤ s → s < 0.5 → getMatchQuality s = "🟠" :=
    fun s h3 h5 => by
      rw [getMatchQuality, if_neg (not_le.mpr (h5.trans (by norm_num))),
        if_neg (not_le.mpr h5), if_pos h3]
  refine ⟨tierStrong, tierGood, tierPart, fun s h3 => ?_,
    tierStrong 0.7 le_rfl, tierGood 0.5 le_rfl (by norm_num),
    tierPart 0.35 le_rfl (by norm_num), fun i r => ?_⟩
  · rw [getMatchQuality, if_neg (not_le.mpr (h3.trans (by norm_num))),
      if_neg (not_le.mpr (h3.trans (by norm_num))), if_neg (not_le.mpr h3)]
  · refine ⟨"[" ++ toString (i + 1) ++ "] ",
      " " ++ toFixed1 (r.score * 100) ++ "% | " ++ r.source ++ "\n" ++ r.text, ?_⟩
    simp only [formatQueryLine, String.append_assoc]

/-- Witness for C4 at concrete scores in each tier. -/
theorem claim_C4_match_quality_tiers_witness :
    getMatchQuality 0.75 = "🟢" ∧ getMatchQuality 0.55 = "🟡" ∧
    getMatchQuality 0.4 = "🟠" ∧ getMatchQuality 0.1 = "🔴" :=
  ⟨claim_C4_match_quality_tiers.1 0.75 (by norm_num),
   claim_C4_match_quality_tiers.2.1 0.55 (by norm_num) (by norm_num),
   claim_C4_match_quality_tiers.2.2.1 0.4 (by norm_num) (by norm_num),
   claim_C4_match_quality_tiers.2.2.2.1 0.1 (by norm_num)⟩

/-- C6: the reported storage percent is `round(used / limit * 100)` whenever
the limit is positive and is defined as 0 when the limit is 0 (the division
branch is never taken then); concretely 0/0 gives 0 and 25/100 gives 25,
also through the full `getStatus` pipeline. -/
theorem claim_C6_storage_percent :
    (∀ used limit : ℚ, 0 < limit →
      storagePercent used limit = round (used / limit * 100)) ∧
    (∀ used : ℚ, storagePercent used 0 = 0) ∧
    storagePercent 0 0 = 0 ∧ storagePercent 25 100 = 25 ∧
    getStatus (.ok ⟨"ok"⟩) (.ok ⟨true, some ⟨25, 100⟩, none⟩) =
      ⟨true, some true, some ⟨25, 100, 25⟩, none⟩ := by
  refine ⟨fun u l h => by rw [storagePercent, if_pos h]; rfl,
    fun u => by rw [storagePercent, if_neg (by norm_num)],
    by rw [storagePercent, if_neg (by norm_num)],
    ?_, ?_⟩
  · rw [storagePercent, if_pos (by norm_num : (0 : ℚ) < 100)]
    norm_num [jsRound]
  · simp only [getStatus, storagePercent, Option.map_some, Option.getD_some]
    norm_num [jsRound]

/-- Witness for C6 at a concrete positive limit. -/
theorem claim_C6_storage_percent_witness :
    storagePercent 25 100 = round ((25 : ℚ) / 100 * 100) :=
  claim_C6_storage_percent.1 25 100 (by norm_num)

/-- C5: the whoami recent-activity list is deduplicated by source keeping
the first occurrence of each source in original order (the source filter
refines the spec-side first-occurrence fold), the deduplication happens
before the truncation to 5, sources [A, B, A, C] dedupe to [A, B, C], and a
seven-record input shows that truncating first would give a different
(shorter) list. -/
theorem claim_C5_recent_activity_dedup :
    (∀ l : List Activity, uniqueRecent l = specFirstOccurrences l) ∧
    (∀ l : List Activity, recentActivityShown l = (specFirstOccurrences l).take 5) ∧
    uniqueRecent [⟨"A", "1"⟩, ⟨"B", "2"⟩, ⟨"A", "3"⟩, ⟨"C", "4"⟩] =
      [⟨"A", "1"⟩, ⟨"B", "2"⟩, ⟨"C", "4"⟩] ∧
    recentActivityShown
        [⟨"A", "1"⟩, ⟨"A", "2"⟩, ⟨"B", "3"⟩, ⟨"C", "4"⟩, ⟨"D", "5"⟩, ⟨"E", "6"⟩,
         ⟨"F", "7"⟩] =
      [⟨"A", "1"⟩, ⟨"B", "3"⟩, ⟨"C", "4"⟩, ⟨"D", "5"⟩, ⟨"E", "6"⟩] ∧
    recentActivityShown
        [⟨"A", "1"⟩, ⟨"A", "2"⟩, ⟨"B", "3"⟩, ⟨"C", "4"⟩, ⟨"D", "5"⟩, ⟨"E", "6"⟩,
         ⟨"F", "7"⟩] ≠
      uniqueRecent
        ([⟨"A", "1"⟩, ⟨"A", "2"⟩, ⟨"B", "3"⟩, ⟨"C", "4"⟩, ⟨"D", "5"⟩, ⟨"E", "6"⟩,
          ⟨"F", "7"⟩].take 5) := by
  have refines : ∀ l : List Activity, uniqueRecent l = specFirstOccurrences l := by
    intro l
    rw [uniqueRecent, specFirstOccurrences, specFold_eq_dedupe l []]
    rfl
  refine ⟨refines, fun l => ?_, by decide, by decide, by decide⟩
  rw [recentActivityShown, refines l]

/-- Witness for C5 at a concrete activity list. -/
theorem claim_C5_recent_activity_dedup_witness :
    uniqueRecent [⟨"A", "1"⟩, ⟨"B", "2"⟩] =
      specFirstOccurrences [⟨"A", "1"⟩, ⟨"B", "2"⟩] :=
  claim_C5_recent_activity_dedup.1 [⟨"A", "1"⟩, ⟨"B", "2"⟩]

/-- C10: for Query and for List, a successful payload with an empty or
absent results list renders the fixed informational no-results message with
the error flag clear — never a failure. -/
theorem claim_C10_empty_success_not_failure :
    (∀ r : QueryRemote, r.success = true → r.results = none ∨ r.results = some [] →
      queryToolHandler (.ok r) =
        ⟨"No relevant memories found for this query.", false⟩) ∧
    (∀ (limit : ℚ) (r : ListRemote), r.success = true →
      r.artifacts = none ∨ r.artifacts = some [] →
      listToolHandler limit (.ok r) =
        ⟨"No memories stored yet. Use memdata_ingest to add content.", false⟩) := by
  constructor
  · intro r hs hres
    rcases hres with h | h <;> simp [queryToolHandler, queryMemory, hs, h]
  · intro limit r hs hres
    rcases hres with h | h <;> simp [listToolHandler, listArtifacts, hs, h]

/-- Witness for C10 at concrete empty successful payloads. -/
theorem claim_C10_empty_success_not_failure_witness :
    queryToolHandler (.ok ⟨true, some [], none, none, none⟩) =
      ⟨"No relevant memories found for this query.", false⟩ ∧
    listToolHandler 20 (.ok ⟨true, none, none⟩) =
      ⟨"No memories stored yet. Use memdata_ingest to add content.", false⟩ :=
  ⟨claim_C10_empty_success_not_failure.1 ⟨true, some [], none, none, none⟩ rfl
     (Or.inr rfl),
   claim_C10_empty_success_not_failure.2 20 ⟨true, none, none⟩ rfl (Or.inl rfl)⟩

/-- C2: for every operation, a non-2xx HTTP response makes the transport
helper fail with an error carrying the status code and raw body text; the
operation boundary catches it and renders a failure message that carries
exactly that status-and-body error text, with the error flag set.  Each
handler is a total function returning a rendered output, so no invocation
terminates the process. -/
theorem claim_C2_non_2xx_rendered :
    (∀ (resp : HttpResponse) (p : IngestRemote) (name : String), resp.ok = false →
      ingestToolHandler name (callAPI resp p) =
        ⟨"Failed to ingest content: " ++ apiErrorMessage resp.status resp.bodyText,
         true⟩) ∧
    (∀ (resp : HttpResponse) (p : QueryRemote), resp.ok = false →
      queryToolHandler (callAPI resp p) =
        ⟨"Failed to query memory: " ++ apiErrorMessage resp.status resp.bodyText,
         true⟩) ∧
    (∀ (resp : HttpResponse) (p : ListRemote) (limit : ℚ), resp.ok = false →
      listToolHandler limit (callAPI resp p) =
        ⟨"Failed to list memories: " ++ apiErrorMessage resp.status resp.bodyText,
         true⟩) ∧
    (∀ (resp : HttpResponse) (p : DeleteRemote), resp.ok = false →
      deleteToolHandler (callAPI resp p) =
        ⟨"Failed to delete: " ++ apiErrorMessage resp.status resp.bodyText, true⟩) ∧
    (∀ (resp : HttpResponse) (p : HealthRemote) (usage : Except String UsageRemote),
      resp.ok = false →
      statusToolHandler (callAPI resp p) usage =
        ⟨"Failed to get status: " ++ apiErrorMessage resp.status resp.bodyText,
         true⟩) ∧
    (∀ (resp : HttpResponse) (h : HealthRemote) (p : UsageRemote), resp.ok = false →
      statusToolHandler (.ok h) (callAPI resp p) =
        ⟨"Failed to get status: " ++ apiErrorMessage resp.status resp.bodyText,
         true⟩) ∧
    (∀ (resp : HttpResponse) (p : IdentityRemote), resp.ok = false →
      whoamiToolHandler (callAPI resp p) =
        ⟨"Failed to get identity: " ++ apiErrorMessage resp.status resp.bodyText,
         true⟩) ∧
    (∀ (resp : HttpResponse) (p : AckRemote) (summary : String)
      (working_on : Option String), resp.ok = false →
      sessionEndToolHandler summary working_on (callAPI resp p) =
        ⟨"Failed to save handoff: " ++ apiErrorMessage resp.status resp.bodyText,
         true⟩) ∧
    (∀ (resp : HttpResponse) (p : AckRemote) (a i : Option String), resp.ok = false →
      setIdentityToolHandler a i (callAPI resp p) =
        ⟨"Failed to update identity: " ++ apiErrorMessage resp.status resp.bodyText,
         true⟩) ∧
    (∀ (resp : HttpResponse) (p : RelRemote) (entity : String), resp.ok = false →
      relationshipsToolHandler entity (callAPI resp p) =
        ⟨"Failed to get relationships: " ++ apiErrorMessage resp.status resp.bodyText,
         true⟩) ∧
    (∀ (resp : HttpResponse) (p : DatedQueryRemote) (q : String)
      (since untilDate : Option String), resp.ok = false →
      timerangeToolHandler q since untilDate (callAPI resp p) =
        ⟨"Failed to query memory: " ++ apiErrorMessage resp.status resp.bodyText,
         true⟩) ∧
    ingestToolHandler "notes" (callAPI ⟨false, 401, "Unauthorized"⟩
        (⟨true, none, none, none⟩ : IngestRemote)) =
      ⟨"Failed to ingest content: API error (401): Unauthorized", true⟩ := by
  refine ⟨fun resp p name h => ?_, fun resp p h => ?_, fun resp p limit h => ?_,
    fun resp p h => ?_, fun resp p usage h => ?_, fun resp h' p h => ?_,
    fun resp p h => ?_, fun resp p s w h => ?_, fun resp p a i h => ?_,
    fun resp p e h => ?_, fun resp p q s u h => ?_, ?_⟩
  · simp [ingestToolHandler, callAPI, h]
  · simp [queryToolHandler, callAPI, h]
  · simp [listToolHandler, callAPI, h]
  · simp [deleteToolHandler, callAPI, h]
  · simp [statusToolHandler, getStatus, callAPI, h, jsShowOptStr]
  · simp [statusToolHandler, getStatus, callAPI, h, jsShowOptStr]
  · simp [whoamiToolHandler, callAPI, h]
  · simp [sessionEndToolHandler, callAPI, h]
  · simp [setIdentityToolHandler, callAPI, h]
  · simp [relationshipsToolHandler, callAPI, h]
  · simp [timerangeToolHandler, callAPI, h]
  · rfl

/-- Witness for C2 at the concrete 401 scenario for several operations. -/
theorem claim_C2_non_2xx_rendered_witness :
    queryToolHandler (callAPI ⟨false, 401, "Unauthorized"⟩
        (⟨true, none, none, none, none⟩ : QueryRemote)) =
      ⟨"Failed to query memory: " ++ apiErrorMessage 401 "Unauthorized", true⟩ ∧
    deleteToolHandler (callAPI ⟨false, 401, "Unauthorized"⟩
        (⟨true, none, none, none⟩ : DeleteRemote)) =
      ⟨"Failed to delete: " ++ apiErrorMessage 401 "Unauthorized", true⟩ ∧
    statusToolHandler (callAPI ⟨false, 401, "Unauthorized"⟩
        (⟨"ok"⟩ : HealthRemote)) (.ok ⟨true, none, none⟩) =
      ⟨"Failed to get status: " ++ apiErrorMessage 401 "Unauthorized", true⟩ :=
  ⟨claim_C2_non_2xx_rendered.2.1 ⟨false, 401, "Unauthorized"⟩
     ⟨true, none, none, none, none⟩ rfl,
   claim_C2_non_2xx_rendered.2.2.2.1 ⟨false, 401, "Unauthorized"⟩
     ⟨true, none, none, none⟩ rfl,
   claim_C2_non_2xx_rendered.2.2.2.2.1 ⟨false, 401, "Unauthorized"⟩ ⟨"ok"⟩
     (.ok ⟨true, none, none⟩) rfl⟩

/-- C1 counterexample: the Status operation does not surface an explicit
`success:false` in the usage payload as a failure — `getStatus` never reads
that flag.  With a healthy health payload and a usage payload reporting
`success:false` with an error explanation, the rendered output is a success
report (0 MB storage) with the error flag clear, so the claim's
"for every operation" quantification is false. -/
theorem claim_C1_cex_status_ignores_flag :
    (⟨false, none, some "quota exceeded"⟩ : UsageRemote).success = false ∧
    statusToolHandler (.ok ⟨"ok"⟩) (.ok ⟨false, none, some "quota exceeded"⟩) =
      ⟨"MemData Status:\n- API: Healthy\n- Storage: 0 MB / 0 MB (0% used)",
       false⟩ := by
  refine ⟨rfl, ?_⟩
  simp only [statusToolHandler, getStatus, storagePercent, Option.map_none,
    Option.getD_none, Option.getD_some]
  norm_num [numToString, jsRound]
  decide

/-- C1 amended: for every operation except Status (whose usage payload's
success flag is ignored), a payload carrying `success:false` is surfaced as
a textual failure message with the remote-supplied explanation (defaulted to
"Unknown error" when absent or empty) and the error flag set, and is never
thrown further; in particular Delete on `{success:false, error:"not found"}`
renders exactly "Failed to delete: not found" with the error flag set. -/
theorem claim_C1_amended_remote_failure_surfaced :
    (∀ r : DeleteRemote, r.success = false →
      deleteToolHandler (.ok r) =
        ⟨"Failed to delete: " ++ orDefault r.error "Unknown error", true⟩) ∧
    (∀ (r : IngestRemote) (name : String), r.success = false →
      ingestToolHandler name (.ok r) =
        ⟨"Failed to ingest: " ++ orDefault r.error "Unknown error", true⟩) ∧
    (∀ r : QueryRemote, r.success = false →
      queryToolHandler (.ok r) =
        ⟨"Failed to query: " ++ orDefault r.error "Unknown error", true⟩) ∧
    (∀ (r : ListRemote) (limit : ℚ), r.success = false →
      listToolHandler limit (.ok r) =
        ⟨"Failed to list: " ++ orDefault r.error "Unknown error", true⟩) ∧
    (∀ r : IdentityRemote, r.success = false →
      whoamiToolHandler (.ok r) =
        ⟨"Failed to get identity: " ++ orDefault r.error "Unknown error", true⟩) ∧
    (∀ (r : AckRemote) (summary : String) (working_on : Option String),
      r.success = false →
      sessionEndToolHandler summary working_on (.ok r) =
        ⟨"Failed to save handoff: " ++ orDefault r.error "Unknown error", true⟩) ∧
    (∀ (r : AckRemote) (a i : Option String), r.success = false →
      setIdentityToolHandler a i (.ok r) =
        ⟨"Failed to update identity: " ++ orDefault r.error "Unknown error",
         true⟩) ∧
    (∀ (r : RelRemote) (entity : String), r.success = false →
      relationshipsToolHandler entity (.ok r) =
        ⟨"Failed to get relationships: " ++
          orDefault r.error (orDefault r.message "Unknown error"), true⟩) ∧
    (∀ (r : DatedQueryRemote) (q : String) (since untilDate : Option String),
      r.success = false →
      timerangeToolHandler q since untilDate (.ok r) =
        ⟨"Failed to query: " ++ orDefault r.error "Unknown error", true⟩) ∧
    deleteToolHandler (.ok ⟨false, none, some "not found", none⟩) =
      ⟨"Failed to delete: not found", true⟩ := by
  refine ⟨fun r h => ?_, fun r name h => ?_, fun r h => ?_, fun r limit h => ?_,
    fun r h => ?_, fun r s w h => ?_, fun r a i h => ?_, fun r e h => ?_,
    fun r q s u h => ?_, ?_⟩
  · simp [deleteToolHandler, deleteArtifact, h, jsShowOptStr]
  · simp [ingestToolHandler, ingestContent, h, jsShowOptStr]
  · simp [queryToolHandler, queryMemory, h, jsShowOptStr]
  · simp [listToolHandler, listArtifacts, h, jsShowOptStr]
  · simp [whoamiToolHandler, getIdentity, h, jsShowOptStr]
  · simp [sessionEndToolHandler, endSessionResult, h, jsShowOptStr]
  · simp [setIdentityToolHandler, updateIdentityResult, h, jsShowOptStr]
  · simp [relationshipsToolHandler, getRelationships, h, jsShowOptStr]
  · simp [timerangeToolHandler, queryMemoryWithDates, h, jsShowOptStr]
  · rfl

/-- Witness for the amended C1 at concrete failing payloads per operation. -/
theorem claim_C1_amended_remote_failure_surfaced_witness :
    deleteToolHandler (.ok ⟨false, none, some "not found", none⟩) =
      ⟨"Failed to delete: " ++ orDefault (some "not found") "Unknown error",
       true⟩ ∧
    ingestToolHandler "n" (.ok ⟨false, none, none, some "bad"⟩) =
      ⟨"Failed to ingest: " ++ orDefault (some "bad") "Unknown error", true⟩ ∧
    queryToolHandler (.ok ⟨false, none, none, none, some "bad"⟩) =
      ⟨"Failed to query: " ++ orDefault (some "bad") "Unknown error", true⟩ ∧
    listToolHandler 20 (.ok ⟨false, none, some "bad"⟩) =
      ⟨"Failed to list: " ++ orDefault (some "bad") "Unknown error", true⟩ ∧
    whoamiToolHandler (.ok ⟨false, none, none, none, none, none, some "bad"⟩) =
      ⟨"Failed to get identity: " ++ orDefault (some "bad") "Unknown error",
       true⟩ ∧
    sessionEndToolHandler "s" none (.ok ⟨false, some "bad", none⟩) =
      ⟨"Failed to save handoff: " ++ orDefault (some "bad") "Unknown error",
       true⟩ ∧
    setIdentityToolHandler none none (.ok ⟨false, some "bad", none⟩) =
      ⟨"Failed to update identity: " ++ orDefault (some "bad") "Unknown error",
       true⟩ ∧
    relationshipsToolHandler "e" (.ok ⟨false, none, none, none, none, some "bad"⟩) =
      ⟨"Failed to get relationships: " ++
        orDefault none (orDefault (some "bad") "Unknown error"), true⟩ ∧
    timerangeToolHandler "q" none none (.ok ⟨false, none, some "bad"⟩) =
      ⟨"Failed to query: " ++ orDefault (some "bad") "Unknown error", true⟩ :=
  ⟨claim_C1_amended_remote_failure_surfaced.1 ⟨false, none, some "not found", none⟩
     rfl,
   claim_C1_amended_remote_failure_surfaced.2.1 ⟨false, none, none, some "bad"⟩
     "n" rfl,
   claim_C1_amended_remote_failure_surfaced.2.2.1
     ⟨false, none, none, none, some "bad"⟩ rfl,
   claim_C1_amended_remote_failure_surfaced.2.2.2.1 ⟨false, none, some "bad"⟩
     20 rfl,
   claim_C1_amended_remote_failure_surfaced.2.2.2.2.1
     ⟨false, none, none, none, none, none, some "bad"⟩ rfl,
   claim_C1_amended_remote_failure_surfaced.2.2.2.2.2.1
     ⟨false, some "bad", none⟩ "s" none rfl,
   claim_C1_amended_remote_failure_surfaced.2.2.2.2.2.2.1
     ⟨false, some "bad", none⟩ none none rfl,
   claim_C1_amended_remote_failure_surfaced.2.2.2.2.2.2.2.1
     ⟨false, none, none, none, none, some "bad"⟩ "e" rfl,
   claim_C1_amended_remote_failure_surfaced.2.2.2.2.2.2.2.2.1
     ⟨false, none, some "bad"⟩ "q" none none rfl⟩

/-- C7 counterexample: the declared schemas are plain `z.string()` with no
non-emptiness constraint, so an Ingest call with empty `content` and a
session-end call with empty `summary` pass validation and reach the network
boundary with a serialized body — they are not rejected. -/
theorem claim_C7_cex_empty_strings_validate :
    parseIngestArgs [("content", .str ""), ("name", .str "notes")] =
      some ("", "notes") ∧
    ingestDispatch [("content", .str ""), ("name", .str "notes")] =
      some [("content", .str ""), ("sourceName", .str "notes")] ∧
    parseSessionEndArgs [("summary", .str "")] = some ("", none, none) ∧
    sessionEndDispatch [("summary", .str "")] "2026-10-12T00:00:00.000Z" =
      some (endSessionBody "" none none "2026-10-12T00:00:00.000Z") :=
  ⟨rfl, rfl, rfl, rfl⟩

/-- C7 amended: for Ingest, `content` and `name` must be present,
string-typed values, and for EndSession, `summary` must be a present,
string-typed value; a call missing such a field or supplying a non-string
value is rejected by schema validation at the dispatch boundary before any
network call is attempted — but the empty string is a valid string, so
emptiness is not checked. -/
theorem claim_C7_amended_required_string_fields :
    (∀ o : List (String × Json), o.lookup "content" = none →
      ingestDispatch o = none) ∧
    (∀ (o : List (String × Json)) (v : Json), o.lookup "content" = some v →
      v.asString = none → ingestDispatch o = none) ∧
    (∀ o : List (String × Json), o.lookup "name" = none →
      ingestDispatch o = none) ∧
    (∀ (o : List (String × Json)) (v : Json), o.lookup "name" = some v →
      v.asString = none → ingestDispatch o = none) ∧
    (∀ (o : List (String × Json)) (now : String), o.lookup "summary" = none →
      sessionEndDispatch o now = none) ∧
    (∀ (o : List (String × Json)) (v : Json) (now : String),
      o.lookup "summary" = some v → v.asString = none →
      sessionEndDispatch o now = none) ∧
    (∀ c n : String, parseIngestArgs [("content", .str c), ("name", .str n)] =
      some (c, n)) := by
  refine ⟨fun o h => ?_, fun o v h hv => ?_, fun o h => ?_, fun o v h hv => ?_,
    fun o now h => ?_, fun o v now h hv => ?_, fun c n => ?_⟩
  · simp [ingestDispatch, parseIngestArgs, h]
  · simp [ingestDispatch, parseIngestArgs, h, hv]
  · cases hc : (o.lookup "content").bind Json.asString <;>
      simp [ingestDispatch, parseIngestArgs, hc, h]
  · cases hc : (o.lookup "content").bind Json.asString <;>
      simp [ingestDispatch, parseIngestArgs, hc, h, hv]
  · simp [sessionEndDispatch, parseSessionEndArgs, h]
  · simp [sessionEndDispatch, parseSessionEndArgs, h, hv]
  · rfl

/-- Witness for the amended C7 at concrete argument objects. -/
theorem claim_C7_amended_required_string_fields_witness :
    ingestDispatch [("name", .str "notes")] = none ∧
    ingestDispatch [("content", .num 3), ("name", .str "notes")] = none ∧
    ingestDispatch [("content", .str "hello")] = none ∧
    ingestDispatch [("content", .str "hello"), ("name", .bool true)] = none ∧
    sessionEndDispatch [] "t" = none ∧
    sessionEndDispatch [("summary", .num 1)] "t" = none ∧
    parseIngestArgs [("content", .str "hello"), ("name", .str "notes")] =
      some ("hello", "notes") :=
  ⟨claim_C7_amended_required_string_fields.1 [("name", .str "notes")] rfl,
   claim_C7_amended_required_string_fields.2.1
     [("content", .num 3), ("name", .str "notes")] (.num 3) rfl rfl,
   claim_C7_amended_required_string_fields.2.2.1 [("content", .str "hello")] rfl,
   claim_C7_amended_required_string_fields.2.2.2.1
     [("content", .str "hello"), ("name", .bool true)] (.bool true) rfl rfl,
   claim_C7_amended_required_string_fields.2.2.2.2.1 [] "t" rfl,
   claim_C7_amended_required_string_fields.2.2.2.2.2.1
     [("summary", .num 1)] (.num 1) "t" rfl rfl,
   claim_C7_amended_required_string_fields.2.2.2.2.2.2 "hello" "notes"⟩

/-- C8 counterexample: the QueryTimeRange body adds `since` under a JS
truthiness test, so a caller-supplied empty string — a supplied value — is
dropped from the request body, refuting "included if and only if the caller
supplies it". -/
theorem claim_C8_cex_empty_since_dropped :
    (some "" : Option String).isSome = true ∧
    (queryMemoryWithDatesBody "q" 5 (some "") none).lookup "since" = none :=
  ⟨rfl, rfl⟩

/-- C8 amended: for SetIdentity each of `agent_name` and `identity_summary`
is omitted from the upstream body when absent and included unchanged when
supplied; for QueryTimeRange each of `since` and `until` is included in the
body if and only if the caller supplies a non-empty string (JS truthiness
treats a supplied empty string like an absent value), and a supplied
non-empty value is passed through unchanged with no local date
validation. -/
theorem claim_C8_amended_optional_field_passthrough :
    (∀ i : Option String, (updateIdentityBody none i).lookup "agent_name" = none) ∧
    (∀ a : Option String,
      (updateIdentityBody a none).lookup "identity_summary" = none) ∧
    (∀ (a : String) (i : Option String),
      (updateIdentityBody (some a) i).lookup "agent_name" = some (.str a)) ∧
    (∀ (a : Option String) (i : String),
      (updateIdentityBody a (some i)).lookup "identity_summary" = some (.str i)) ∧
    (∀ (q : String) (l : ℚ) (u : Option String),
      (queryMemoryWithDatesBody q l none u).lookup "since" = none) ∧
    (∀ (q : String) (l : ℚ) (u : Option String),
      (queryMemoryWithDatesBody q l (some "") u).lookup "since" = none) ∧
    (∀ (q : String) (l : ℚ) (u : Option String) (s : String), s ≠ "" →
      (queryMemoryWithDatesBody q l (some s) u).lookup "since" = some (.str s)) ∧
    (∀ (q : String) (l : ℚ) (s : Option String),
      (queryMemoryWithDatesBody q l s none).lookup "until" = none) ∧
    (∀ (q : String) (l : ℚ) (s : Option String),
      (queryMemoryWithDatesBody q l s (some "")).lookup "until" = none) ∧
    (∀ (q : String) (l : ℚ) (s : Option String) (u : String), u ≠ "" →
      (queryMemoryWithDatesBody q l s (some u)).lookup "until" = some (.str u)) := by
  refine ⟨fun i => ?_, fun a => ?_, fun a i => ?_, fun a i => ?_, fun q l u => ?_,
    fun q l u => ?_, fun q l u s hs => ?_, fun q l s => ?_, fun q l s => ?_,
    fun q l s u hu => ?_⟩
  · cases i <;> simp [updateIdentityBody, List.lookup]
  · cases a <;> simp [updateIdentityBody, List.lookup]
  · simp [updateIdentityBody, List.lookup]
  · cases a <;> simp [updateIdentityBody, List.lookup]
  · cases u <;> simp [queryMemoryWithDatesBody, strTruthy, List.lookup]
  · cases u <;> simp [queryMemoryWithDatesBody, strTruthy, List.lookup]
  · cases u <;> simp [queryMemoryWithDatesBody, strTruthy, hs, List.lookup]
  · cases s <;> simp [queryMemoryWithDatesBody, strTruthy, List.lookup]
  · cases s <;> simp [queryMemoryWithDatesBody, strTruthy, List.lookup]
  · cases s with
    | none => simp [queryMemoryWithDatesBody, strTruthy, hu, List.lookup]
    | some v =>
      by_cases hv : v = "" <;>
        simp [queryMemoryWithDatesBody, strTruthy, hu, hv, List.lookup]

/-- Witness for the amended C8 at concrete supplied and absent values. -/
theorem claim_C8_amended_optional_field_passthrough_witness :
    (updateIdentityBody none (some "sum")).lookup "agent_name" = none ∧
    (updateIdentityBody (some "Bot") none).lookup "agent_name" =
      some (.str "Bot") ∧
    (queryMemoryWithDatesBody "q" 5 (some "2026-01-01") none).lookup "since" =
      some (.str "2026-01-01") ∧
    (queryMemoryWithDatesBody "q" 5 (some "not a date at all") none).lookup
      "since" = some (.str "not a date at all") ∧
    (queryMemoryWithDatesBody "q" 5 none (some "2026-01-31")).lookup "until" =
      some (.str "2026-01-31") ∧
    (queryMemoryWithDatesBody "q" 5 none none).lookup "until" = none :=
  ⟨claim_C8_amended_optional_field_passthrough.1 (some "sum"),
   claim_C8_amended_optional_field_passthrough.2.2.1 "Bot" none,
   claim_C8_amended_optional_field_passthrough.2.2.2.2.2.2.1 "q" 5 none
     "2026-01-01" (by decide),
   claim_C8_amended_optional_field_passthrough.2.2.2.2.2.2.1 "q" 5 none
     "not a date at all" (by decide),
   claim_C8_amended_optional_field_passthrough.2.2.2.2.2.2.2.2.2 "q" 5 none
     "2026-01-31" (by decide),
   claim_C8_amended_optional_field_passthrough.2.2.2.2.2.2.2.1 "q" 5 none⟩

end Memdata
